import Mathlib

/-!
Shallow embedding of the C++ HTTP service template
(`src/infra/docker/templates/cpp/src/main.cpp`): the port resolver
`get_port`, and the three route handlers registered on the
`httplib::Server` (`GET /`, `GET /health`, `POST /api/echo`).

The HTTP listener and the JSON codec are external collaborators
(cpp-httplib and nlohmann/json); the parts of their behaviour the
handlers depend on are embedded here: standard JSON parsing for
`json::parse`, the `operator[]` / `get<std::string>()` access
discipline of nlohmann values, and the listener's default status 200
for a handler that sets content without setting a status.
-/

set_option autoImplicit false

namespace CppService

/-! ### Port resolver -/

/-- C `isspace` in the default locale: the characters `std::atoi` skips. -/
def isCSpace (c : Char) : Bool :=
  c = ' ' || c = '\t' || c = '\n' || c = '\x0b' || c = '\x0c' || c = '\r'

/-- Drop leading whitespace, as `std::atoi` does. -/
def skipCSpace : List Char → List Char
  | [] => []
  | c :: cs => if isCSpace c then skipCSpace cs else c :: cs

/-- Accumulate the leading run of decimal digits; stop at the first
non-digit.  With no leading digit the accumulator (0) is returned. -/
def atoiDigits : List Char → Int → Int
  | [], acc => acc
  | c :: cs, acc =>
      if c.isDigit then atoiDigits cs (10 * acc + (Int.ofNat (c.toNat - 48)))
      else acc

/-- C `std::atoi`: skip whitespace, optional sign, then the longest run
of decimal digits; a string with no leading digits yields 0.  (Overflow
is undefined behaviour in C and is modelled as unbounded `Int`.) -/
def atoi (s : String) : Int :=
  match skipCSpace s.data with
  | '-' :: rest => - (atoiDigits rest 0)
  | '+' :: rest => atoiDigits rest 0
  | cs => atoiDigits cs 0

/-- `get_port` from `main.cpp`: `PORT` absent gives 8080, otherwise the
result of `std::atoi` on its value. -/
def get_port (env : Option String) : Int :=
  match env with
  | none => 8080
  | some s => atoi s

/-! ### JSON values and the external codec

`json::parse` is the nlohmann/json parser, an external collaborator of
this repository; it is embedded as a standard strict JSON parser:
whitespace is space, tab, newline, carriage return; literals `null`,
`true`, `false`; numbers without leading zeros; strings with the eight
short escapes and `\uXXXX` (surrogate pairs combined, lone surrogates
rejected) and with unescaped control characters rejected; the whole
input must be consumed.  Numbers keep their source lexeme: no handler
inspects a numeric value. -/

/-- A parsed JSON value.  Object entries are kept in insertion order;
a duplicate key overwrites the earlier value in place, matching
nlohmann's `operator[]`-based DOM construction where the last
occurrence of a key wins. -/
inductive Json where
  | null : Json
  | bool : Bool → Json
  | num : String → Json
  | str : String → Json
  | arr : List Json → Json
  | obj : List (String × Json) → Json
deriving Repr

/-- Parse failures of the embedded JSON parser.  nlohmann reports each
as a `parse_error` exception whose `what()` is a non-empty diagnostic;
only the category is modelled, not the line/column text. -/
inductive ParseErr where
  | unexpectedEnd
  | syntaxError
  | badEscape
  | badUnicode
  | controlChar
  | trailingChars
deriving DecidableEq, Repr

/-- JSON whitespace. -/
def isJsonWs (c : Char) : Bool :=
  c = ' ' || c = '\t' || c = '\n' || c = '\r'

/-- Drop leading JSON whitespace. -/
def skipWs : List Char → List Char
  | [] => []
  | c :: cs => if isJsonWs c then skipWs cs else c :: cs

/-- Value of a hexadecimal digit. -/
def hexVal (c : Char) : Option Nat :=
  if '0' ≤ c ∧ c ≤ '9' then some (c.toNat - 48)
  else if 'a' ≤ c ∧ c ≤ 'f' then some (c.toNat - 97 + 10)
  else if 'A' ≤ c ∧ c ≤ 'F' then some (c.toNat - 65 + 10)
  else none

/-- Read exactly four hex digits. -/
def parseHex4 : List Char → Option (Nat × List Char)
  | c1 :: c2 :: c3 :: c4 :: rest =>
      match hexVal c1, hexVal c2, hexVal c3, hexVal c4 with
      | some h1, some h2, some h3, some h4 =>
          some (((h1 * 16 + h2) * 16 + h3) * 16 + h4, rest)
      | _, _, _, _ => none
  | _ => none

/-- Decode one `\uXXXX` escape (the `\u` already consumed), combining a
surrogate pair into one scalar value and rejecting lone surrogates. -/
def parseUnicodeEscape (cs : List Char) : Except ParseErr (Char × List Char) :=
  match parseHex4 cs with
  | none => .error .badUnicode
  | some (n, rest) =>
      if 0xD800 ≤ n ∧ n ≤ 0xDBFF then
        match rest with
        | '\\' :: 'u' :: rest2 =>
            match parseHex4 rest2 with
            | none => .error .badUnicode
            | some (m, rest3) =>
                if 0xDC00 ≤ m ∧ m ≤ 0xDFFF then
                  .ok (Char.ofNat (0x10000 + (n - 0xD800) * 0x400 + (m - 0xDC00)), rest3)
                else .error .badUnicode
        | _ => .error .badUnicode
      else if 0xDC00 ≤ n ∧ n ≤ 0xDFFF then .error .badUnicode
      else .ok (Char.ofNat n, rest)

/-- Body of a JSON string, after the opening quote; `acc` holds the
decoded characters in reverse.  Fuel-bounded: every recursive call
consumes at least one input character, so any fuel above the input
length is enough. -/
def parseStringBody : Nat → List Char → List Char → Except ParseErr (String × List Char)
  | 0, _, _ => .error .unexpectedEnd
  | _ + 1, [], _ => .error .unexpectedEnd
  | fuel + 1, c :: cs, acc =>
      if c = '"' then .ok (String.mk acc.reverse, cs)
      else if c = '\\' then
        match cs with
        | [] => .error .unexpectedEnd
        | e :: cs2 =>
            if e = '"' then parseStringBody fuel cs2 ('"' :: acc)
            else if e = '\\' then parseStringBody fuel cs2 ('\\' :: acc)
            else if e = '/' then parseStringBody fuel cs2 ('/' :: acc)
            else if e = 'b' then parseStringBody fuel cs2 ('\x08' :: acc)
            else if e = 'f' then parseStringBody fuel cs2 ('\x0c' :: acc)
            else if e = 'n' then parseStringBody fuel cs2 ('\n' :: acc)
            else if e = 'r' then parseStringBody fuel cs2 ('\r' :: acc)
            else if e = 't' then parseStringBody fuel cs2 ('\t' :: acc)
            else if e = 'u' then
              match parseUnicodeEscape cs2 with
              | .error err => .error err
              | .ok (ch, rest) => parseStringBody fuel rest (ch :: acc)
            else .error .badEscape
      else if c.toNat < 0x20 then .error .controlChar
      else parseStringBody fuel cs (c :: acc)

/-- The longest leading run of decimal digits, as a lexeme. -/
def takeDigits : List Char → (List Char × List Char)
  | [] => ([], [])
  | c :: cs =>
      if c.isDigit then
        let (ds, rest) := takeDigits cs
        (c :: ds, rest)
      else ([], c :: cs)

/-- A JSON number token (grammar `-? int frac? exp?`, no leading
zeros), returned as its source lexeme. -/
def parseNumber (cs : List Char) : Except ParseErr (Json × List Char) :=
  let (sign, cs1) :=
    match cs with
    | '-' :: rest => (['-'], rest)
    | _ => (([] : List Char), cs)
  match cs1 with
  | [] => .error .unexpectedEnd
  | c :: rest =>
      if c = '0' then
        parseFracExp (sign ++ ['0']) rest
      else if c.isDigit then
        let (ds, rest2) := takeDigits rest
        parseFracExp (sign ++ (c :: ds)) rest2
      else .error .syntaxError
where
  /-- Optional fraction and exponent after the integer part. -/
  parseFracExp (lexeme : List Char) (cs : List Char) :
      Except ParseErr (Json × List Char) :=
    let (lexF, csF) :=
      match cs with
      | '.' :: rest =>
          match takeDigits rest with
          | ([], _) => (none, cs)
          | (ds, rest2) => (some (lexeme ++ '.' :: ds), rest2)
      | _ => (some lexeme, cs)
    match lexF with
    | none => .error .syntaxError
    | some lex1 =>
        match csF with
        | 'e' :: rest => parseExpTail lex1 'e' rest
        | 'E' :: rest => parseExpTail lex1 'E' rest
        | _ => .ok (.num (String.mk lex1), csF)
  /-- Exponent digits after `e`/`E`. -/
  parseExpTail (lexeme : List Char) (e : Char) (cs : List Char) :
      Except ParseErr (Json × List Char) :=
    let (sgn, cs1) :=
      match cs with
      | '+' :: rest => (['+'], rest)
      | '-' :: rest => (['-'], rest)
      | _ => (([] : List Char), cs)
    match takeDigits cs1 with
    | ([], _) => .error .syntaxError
    | (ds, rest) => .ok (.num (String.mk (lexeme ++ e :: (sgn ++ ds))), rest)

/-- Insert a key into an object under construction: nlohmann builds the
DOM through `operator[]`, so a repeated key overwrites in place. -/
def insertKV : List (String × Json) → String → Json → List (String × Json)
  | [], k, v => [(k, v)]
  | (k0, v0) :: rest, k, v =>
      if k0 = k then (k0, v) :: rest else (k0, v0) :: insertKV rest k v

mutual

/-- One JSON value, fuel-bounded (any fuel above the input length is
enough, since every recursive call first consumes a character). -/
def parseValue : Nat → List Char → Except ParseErr (Json × List Char)
  | 0, _ => .error .unexpectedEnd
  | fuel + 1, cs =>
      match skipWs cs with
      | [] => .error .unexpectedEnd
      | c :: rest =>
          if c = '"' then
            match parseStringBody (rest.length + 1) rest [] with
            | .error e => .error e
            | .ok (s, rest2) => .ok (.str s, rest2)
          else if c = '{' then
            match skipWs rest with
            | '}' :: rest2 => .ok (.obj [], rest2)
            | rest2 => parseObjEntry fuel rest2 []
          else if c = '[' then
            match skipWs rest with
            | ']' :: rest2 => .ok (.arr [], rest2)
            | rest2 =>
                match parseValue fuel rest2 with
                | .error e => .error e
                | .ok (v, rest3) => parseArrTail fuel rest3 [v]
          else if c = 't' then
            match rest with
            | 'r' :: 'u' :: 'e' :: rest2 => .ok (.bool true, rest2)
            | _ => .error .syntaxError
          else if c = 'f' then
            match rest with
            | 'a' :: 'l' :: 's' :: 'e' :: rest2 => .ok (.bool false, rest2)
            | _ => .error .syntaxError
          else if c = 'n' then
            match rest with
            | 'u' :: 'l' :: 'l' :: rest2 => .ok (.null, rest2)
            | _ => .error .syntaxError
          else if c = '-' ∨ c.isDigit then parseNumber (c :: rest)
          else .error .syntaxError

/-- One `"key" : value` entry (leading whitespace already skipped),
then the rest of the object. -/
def parseObjEntry (fuel : Nat) (cs : List Char) (acc : List (String × Json)) :
    Except ParseErr (Json × List Char) :=
  match fuel with
  | 0 => .error .unexpectedEnd
  | fuel + 1 =>
      match cs with
      | '"' :: rest =>
          match parseStringBody (rest.length + 1) rest [] with
          | .error e => .error e
          | .ok (key, rest2) =>
              match skipWs rest2 with
              | ':' :: rest3 =>
                  match parseValue fuel rest3 with
                  | .error e => .error e
                  | .ok (v, rest4) => parseObjTail fuel rest4 (insertKV acc key v)
              | _ => .error .syntaxError
      | _ => .error .syntaxError

/-- After an object entry: `,` and another entry, or `}`. -/
def parseObjTail (fuel : Nat) (cs : List Char) (acc : List (String × Json)) :
    Except ParseErr (Json × List Char) :=
  match fuel with
  | 0 => .error .unexpectedEnd
  | fuel + 1 =>
      match skipWs cs with
      | '}' :: rest => .ok (.obj acc, rest)
      | ',' :: rest => parseObjEntry fuel (skipWs rest) acc
      | _ => .error .syntaxError

/-- After an array element: `,` and another value, or `]`. -/
def parseArrTail (fuel : Nat) (cs : List Char) (acc : List Json) :
    Except ParseErr (Json × List Char) :=
  match fuel with
  | 0 => .error .unexpectedEnd
  | fuel + 1 =>
      match skipWs cs with
      | ']' :: rest => .ok (.arr acc.reverse, rest)
      | ',' :: rest =>
          match parseValue fuel rest with
          | .error e => .error e
          | .ok (v, rest2) => parseArrTail fuel rest2 (v :: acc)
      | _ => .error .syntaxError

end

/-- `json::parse` on the request body: parse one value and require the
remaining input to be whitespace only. -/
def Json.parse (s : String) : Except ParseErr Json :=
  match parseValue (s.length + 1) s.data with
  | .error e => .error e
  | .ok (j, rest) =>
      match skipWs rest with
      | [] => .ok j
      | _ => .error .trailingChars

/-- The diagnostic text of a parse failure, in the style of nlohmann's
`parse_error::what()` (position information omitted). -/
def ParseErr.what : ParseErr → String
  | .unexpectedEnd => "syntax error while parsing value - unexpected end of input"
  | .syntaxError => "syntax error while parsing value - invalid literal"
  | .badEscape => "syntax error while parsing value - invalid string: forbidden character after backslash"
  | .badUnicode => "syntax error while parsing value - invalid string: invalid escaped unicode"
  | .controlChar => "syntax error while parsing value - invalid string: control character must be escaped"
  | .trailingChars => "syntax error while parsing value - unexpected character after value"

/-! ### Response model

The handlers build their responses as nlohmann JSON objects and dump
them; each route produces one fixed shape, embedded as a constructor of
`RespBody` with the fields the source writes. -/

/-- The JSON body shapes the three handlers produce. -/
inductive RespBody where
  /-- Body of `GET /`: `message`, `version`, `endpoints`. -/
  | infoR (message version : String) (endpoints : List String)
  /-- Body of `GET /health`: `status`, `timestamp`. -/
  | healthR (status : String) (timestamp : Int)
  /-- Success body of `POST /api/echo`: `echo`, `length`. -/
  | echoR (echo : String) (length : Nat)
  /-- Failure body of `POST /api/echo`: `error`, `message`. -/
  | errorR (error message : String)
deriving DecidableEq, Repr

/-- An HTTP response: status code plus JSON body.  cpp-httplib answers
status 200 when a handler sets content without assigning `res.status`. -/
structure HttpResponse where
  status : Nat
  body : RespBody
deriving DecidableEq, Repr

/-! ### POST /api/echo -/

/-- First value stored under a key (object entries are unique by
construction, see `insertKV`). -/
def lookupKV : List (String × Json) → String → Option Json
  | [], _ => none
  | (k, v) :: rest, key => if k = key then some v else lookupKV rest key

/-- nlohmann's name for the stored type, as used in its diagnostics. -/
def Json.typeName : Json → String
  | .null => "null"
  | .bool _ => "boolean"
  | .num _ => "number"
  | .str _ => "string"
  | .arr _ => "array"
  | .obj _ => "object"

/-- `request_json["message"].get<std::string>()` on the parsed body:
on an object, `operator[]` returns the stored value, or inserts and
returns `null` when the key is missing; on `null` it first turns the
value into an empty object (so the lookup again yields `null`); on any
other type it throws `type_error.305`.  `get<std::string>()` then
throws `type_error.302` unless the value is a string.  Errors carry
the exception's `what()` text. -/
def getMessage : Json → Except String String
  | .obj kvs =>
      match lookupKV kvs "message" with
      | some (.str s) => .ok s
      | some v => .error ("type must be string, but is " ++ v.typeName)
      | none => .error "type must be string, but is null"
  | .null => .error "type must be string, but is null"
  | j => .error ("cannot use operator[] with a string argument with " ++ j.typeName)

/-- Bytes a character occupies in UTF-8, the encoding of the request
body handed to `std::string`. -/
def charUtf8Size (c : Char) : Nat :=
  if c.toNat ≤ 0x7F then 1
  else if c.toNat ≤ 0x7FF then 2
  else if c.toNat ≤ 0xFFFF then 3
  else 4

/-- UTF-8 byte count of a list of characters. -/
def utf8LenAux : List Char → Nat
  | [] => 0
  | c :: cs => charUtf8Size c + utf8LenAux cs

/-- `std::string::length()` of the UTF-8 encoded string: its byte
count, not its code-point count. -/
def utf8Len (s : String) : Nat := utf8LenAux s.data

/-- The `POST /api/echo` handler: parse the body, build
`{echo, length}` from `request_json["message"]` on success; any
exception from parsing or extraction is caught and answered as status
400 with `{error: "Invalid JSON", message: e.what()}`. -/
def echoHandler (reqBody : String) : HttpResponse :=
  match Json.parse reqBody with
  | .error e =>
      { status := 400, body := .errorR "Invalid JSON" e.what }
  | .ok j =>
      match getMessage j with
      | .ok s => { status := 200, body := .echoR s (utf8Len s) }
      | .error msg => { status := 400, body := .errorR "Invalid JSON" msg }

/-- Whether a parsed body is an object carrying a string under
`"message"`: the success condition of the echo handler. -/
def hasStringMessage : Json → Bool
  | .obj kvs =>
      match lookupKV kvs "message" with
      | some (.str _) => true
      | _ => false
  | _ => false

/-! ### GET / and GET /health -/

/-- The `GET /` handler: ignores the request and serves the fixed info
object from `main.cpp` (status left at the listener's default 200). -/
def rootHandler (_reqBody : String) : HttpResponse :=
  { status := 200
    body := .infoR "C++ HTTP Service" "1.0.0" ["/health", "/api/echo"] }

/-- The `GET /health` handler: `std::time(nullptr)` read at handling
time is passed in as `now` (seconds since epoch). -/
def healthHandler (now : Int) : HttpResponse :=
  { status := 200, body := .healthR "healthy" now }

/-- The `timestamp` field of a response, when it has one. -/
def timestampOf : HttpResponse → Int
  | { status := _, body := .healthR _ t } => t
  | _ => 0

/-! ### main -/

/-- `main` from `main.cpp`, after the routes are registered: resolve the
port, call `svr.listen("0.0.0.0", port)` (abstracted as the predicate
`listenOk` of the external listener), return 1 when it reports failure
and 0 when it returns true (clean shutdown). -/
def mainRun (env : Option String) (listenOk : Int → Bool) : Int :=
  let port := get_port env
  if listenOk port then 0 else 1

/-! ### Helper lemmas -/

/-- A successful parse to an object holding a string `message` makes
the echo handler answer 200 with that string and its byte length. -/
theorem echoHandler_success {body : String} {kvs : List (String × Json)} {s : String}
    (hp : Json.parse body = .ok (.obj kvs))
    (hm : lookupKV kvs "message" = some (.str s)) :
    echoHandler body = { status := 200, body := .echoR s (utf8Len s) } := by
  simp [echoHandler, hp, getMessage, hm]

/-- Every character occupies at least one UTF-8 byte. -/
theorem one_le_charUtf8Size (c : Char) : 1 ≤ charUtf8Size c := by
  unfold charUtf8Size
  repeat' split
  all_goals omega

/-- An ASCII character occupies exactly one UTF-8 byte. -/
theorem charUtf8Size_eq_one {c : Char} (h : c.toNat < 128) : charUtf8Size c = 1 := by
  unfold charUtf8Size
  rw [if_pos (by omega)]

/-- A non-ASCII character occupies at least two UTF-8 bytes. -/
theorem two_le_charUtf8Size {c : Char} (h : 128 ≤ c.toNat) : 2 ≤ charUtf8Size c := by
  unfold charUtf8Size
  rw [if_neg (by omega)]
  repeat' split
  all_goals omega

/-- The byte count dominates the character count. -/
theorem length_le_utf8LenAux (cs : List Char) : cs.length ≤ utf8LenAux cs := by
  induction cs with
  | nil => simp [utf8LenAux]
  | cons c cs ih =>
      have h1 := one_le_charUtf8Size c
      simp only [utf8LenAux, List.length_cons]
      omega

/-- With a non-ASCII member the byte count strictly exceeds the
character count. -/
theorem length_lt_utf8LenAux {cs : List Char} {c : Char} (hc : c ∈ cs)
    (h : 128 ≤ c.toNat) : cs.length < utf8LenAux cs := by
  induction cs with
  | nil => cases hc
  | cons d ds ih =>
      rcases List.mem_cons.mp hc with rfl | hmem
      · have h1 := two_le_charUtf8Size h
        have h2 := length_le_utf8LenAux ds
        simp only [utf8LenAux, List.length_cons]
        omega
      · have h1 := ih hmem
        have h2 := one_le_charUtf8Size d
        simp only [utf8LenAux, List.length_cons]
        omega

/-- On all-ASCII content the byte count and character count agree. -/
theorem utf8LenAux_ascii {cs : List Char} (h : ∀ c ∈ cs, c.toNat < 128) :
    utf8LenAux cs = cs.length := by
  induction cs with
  | nil => rfl
  | cons c cs ih =>
      have h1 := charUtf8Size_eq_one (h c (List.mem_cons_self c cs))
      have h2 := ih (fun d hd => h d (List.mem_cons_of_mem c hd))
      simp only [utf8LenAux, List.length_cons, h1, h2]
      omega

/-- A parsed value with no string under `"message"` makes the
extraction step fail with some diagnostic. -/
theorem getMessage_error_of_not_string {j : Json} (h : hasStringMessage j = false) :
    ∃ m, getMessage j = .error m := by
  cases j with
  | obj kvs =>
      cases hl : lookupKV kvs "message" with
      | none =>
          exact ⟨"type must be string, but is null", by simp [getMessage, hl]⟩
      | some v =>
          cases v with
          | str s => simp [hasStringMessage, hl] at h
          | null =>
              exact ⟨"type must be string, but is " ++ Json.typeName .null,
                by simp [getMessage, hl]⟩
          | bool b =>
              exact ⟨"type must be string, but is " ++ Json.typeName (.bool b),
                by simp [getMessage, hl]⟩
          | num n =>
              exact ⟨"type must be string, but is " ++ Json.typeName (.num n),
                by simp [getMessage, hl]⟩
          | arr xs =>
              exact ⟨"type must be string, but is " ++ Json.typeName (.arr xs),
                by simp [getMessage, hl]⟩
          | obj kvs2 =>
              exact ⟨"type must be string, but is " ++ Json.typeName (.obj kvs2),
                by simp [getMessage, hl]⟩
  | null => exact ⟨"type must be string, but is null", by simp [getMessage]⟩
  | bool b =>
      exact ⟨"cannot use operator[] with a string argument with " ++ Json.typeName (.bool b),
        by simp [getMessage]⟩
  | num n =>
      exact ⟨"cannot use operator[] with a string argument with " ++ Json.typeName (.num n),
        by simp [getMessage]⟩
  | str s =>
      exact ⟨"cannot use operator[] with a string argument with " ++ Json.typeName (.str s),
        by simp [getMessage]⟩
  | arr xs =>
      exact ⟨"cannot use operator[] with a string argument with " ++ Json.typeName (.arr xs),
        by simp [getMessage]⟩

/-! ### Claim theorems -/

/-- Claim C1, counterexample: the claim says `length` is the count of
Unicode code points of `message`.  For the body `{"message":"é"}` the
handler answers 200 with `length` 2 (the UTF-8 byte count of `"é"`),
while `"é"` has exactly 1 code point. -/
theorem echo_codepoint_length_counterexample :
    echoHandler "\x7b\"message\":\"é\"\x7d" =
      { status := 200, body := RespBody.echoR "é" 2 } ∧
    String.length "é" = 1 := by
  constructor
  · rfl
  · rfl

/-- Claim C1, amended: for every body parsing to a JSON object with a
string field `message`, the handler answers 200 with `echo` equal to
`message` verbatim and `length` equal to the UTF-8 byte count of
`message`; that count equals the code-point count when `message` is
all ASCII. -/
theorem echo_success_returns_byte_length (body : String)
    (kvs : List (String × Json)) (s : String)
    (hp : Json.parse body = .ok (.obj kvs))
    (hm : lookupKV kvs "message" = some (.str s)) :
    echoHandler body = { status := 200, body := RespBody.echoR s (utf8Len s) } ∧
      ((∀ c ∈ s.data, c.toNat < 128) → utf8Len s = s.length) := by
  refine ⟨echoHandler_success hp hm, fun h => ?_⟩
  have h2 := utf8LenAux_ascii h
  unfold utf8Len
  rw [h2]
  rfl

/-- Claim C1, witness: the amended statement at the body
`{"message":"hello"}`. -/
theorem echo_success_returns_byte_length_witness :
    echoHandler "\x7b\"message\":\"hello\"\x7d" =
      { status := 200, body := RespBody.echoR "hello" (utf8Len "hello") } ∧
    utf8Len "hello" = String.length "hello" := by
  have h := echo_success_returns_byte_length "\x7b\"message\":\"hello\"\x7d"
    [("message", Json.str "hello")] "hello" rfl rfl
  exact ⟨h.1, h.2 (by decide)⟩

/-- Claim C2, counterexample: the claim says an unparseable `PORT`
falls back to 8080, but `get_port` returns `std::atoi`'s result, which
is 0 for `"notanumber"`. -/
theorem get_port_notanumber_counterexample :
    get_port (some "notanumber") = 0 ∧ get_port (some "notanumber") ≠ 8080 := by
  constructor
  · rfl
  · decide

/-- Claim C2, amended: `get_port` returns 8080 when `PORT` is absent
and `atoi PORT` when it is present; `"9999"` yields 9999, while an
unparseable value such as `"notanumber"` yields `atoi`'s failure value
0, not 8080. -/
theorem get_port_resolution :
    get_port none = 8080 ∧
    (∀ s, get_port (some s) = atoi s) ∧
    get_port (some "9999") = 9999 ∧
    get_port (some "notanumber") = 0 := by
  refine ⟨rfl, fun s => rfl, rfl, rfl⟩

/-- Claim C3: every body parsing to a JSON value without a string
field `message` (missing key, value of another type, or a non-object)
gets status 400 with an ErrorResponse body. -/
theorem echo_no_string_message_400 (body : String) (j : Json)
    (hp : Json.parse body = .ok j) (hm : hasStringMessage j = false) :
    (echoHandler body).status = 400 ∧
      ∃ m, (echoHandler body).body = RespBody.errorR "Invalid JSON" m := by
  obtain ⟨m, hg⟩ := getMessage_error_of_not_string hm
  refine ⟨by simp [echoHandler, hp, hg], ⟨m, by simp [echoHandler, hp, hg]⟩⟩

/-- Claim C3, witness: the body `{"other":"x"}` parses but lacks
`message` and is answered 400. -/
theorem echo_no_string_message_400_witness :
    (echoHandler "\x7b\"other\":\"x\"\x7d").status = 400 ∧
      ∃ m, (echoHandler "\x7b\"other\":\"x\"\x7d").body =
        RespBody.errorR "Invalid JSON" m :=
  echo_no_string_message_400 "\x7b\"other\":\"x\"\x7d"
    (Json.obj [("other", Json.str "x")]) rfl rfl

/-- Claim C4: every body failing to parse as JSON gets status 400
with `error` fixed to "Invalid JSON" and the parser's non-empty
diagnostic as `message`. -/
theorem echo_invalid_json_400 (body : String) (e : ParseErr)
    (hp : Json.parse body = .error e) :
    echoHandler body =
      { status := 400, body := RespBody.errorR "Invalid JSON" e.what } ∧
    e.what ≠ "" := by
  constructor
  · simp [echoHandler, hp]
  · cases e <;> decide

/-- Claim C4, witness: the bodies `not json` and the empty body both
fail to parse and are answered 400 with a non-empty diagnostic. -/
theorem echo_invalid_json_400_witness :
    echoHandler "not json" =
      { status := 400
        body := RespBody.errorR "Invalid JSON" ParseErr.syntaxError.what } ∧
    ParseErr.syntaxError.what ≠ "" ∧
    echoHandler "" =
      { status := 400
        body := RespBody.errorR "Invalid JSON" ParseErr.unexpectedEnd.what } ∧
    ParseErr.unexpectedEnd.what ≠ "" := by
  have h1 := echo_invalid_json_400 "not json" .syntaxError rfl
  have h2 := echo_invalid_json_400 "" .unexpectedEnd rfl
  exact ⟨h1.1, h1.2, h2.1, h2.2⟩

/-- Claim C5: on every request body the echo handler returns normally
with status 200 or 400; each parse or extraction failure is caught
inside the handler. -/
theorem echo_never_crashes (body : String) :
    (echoHandler body).status = 200 ∨ (echoHandler body).status = 400 := by
  unfold echoHandler
  cases hp : Json.parse body with
  | error e => simp
  | ok j => cases hg : getMessage j <;> simp [hg]

/-- Claim C6: the `GET /` handler answers 200 with the fixed info
body, whatever the request carries. -/
theorem root_fixed_info (reqBody : String) :
    rootHandler reqBody =
      { status := 200
        body := RespBody.infoR "C++ HTTP Service" "1.0.0" ["/health", "/api/echo"] } :=
  rfl

/-- Claim C7: the `GET /health` handler answers 200 with `status`
"healthy" and the wall-clock time it was handed; a non-decreasing
clock gives non-decreasing timestamps across consecutive calls. -/
theorem health_fixed_status_monotone_timestamp :
    (∀ now, healthHandler now =
      { status := 200, body := RespBody.healthR "healthy" now }) ∧
    ∀ t1 t2 : Int, t1 ≤ t2 →
      timestampOf (healthHandler t1) ≤ timestampOf (healthHandler t2) := by
  refine ⟨fun now => rfl, fun t1 t2 h => ?_⟩
  simpa [timestampOf, healthHandler] using h

/-- Claim C7, witness: the statement at clock readings 5 and 7. -/
theorem health_fixed_status_monotone_timestamp_witness :
    healthHandler 5 = { status := 200, body := RespBody.healthR "healthy" 5 } ∧
    timestampOf (healthHandler 5) ≤ timestampOf (healthHandler 7) :=
  ⟨health_fixed_status_monotone_timestamp.1 5,
   health_fixed_status_monotone_timestamp.2 5 7 (by decide)⟩

/-- Claim C8: `main` exits 0 exactly when the listener reports
success on the resolved port, and exits 1 (the only non-zero code)
exactly when it fails to bind or listen. -/
theorem main_exit_code (env : Option String) (listenOk : Int → Bool) :
    (mainRun env listenOk = 0 ↔ listenOk (get_port env) = true) ∧
    (mainRun env listenOk = 1 ↔ listenOk (get_port env) = false) := by
  cases h : listenOk (get_port env) <;> simp [mainRun, h]

/-- Claim C9: on every body parsing to an object with a string
`message`, the returned `length` is the UTF-8 byte count of `message`
(`std::string::length()` on the UTF-8 bytes), which strictly exceeds
the code-point count as soon as `message` has a non-ASCII character. -/
theorem echo_length_is_byte_count (body : String)
    (kvs : List (String × Json)) (s : String)
    (hp : Json.parse body = .ok (.obj kvs))
    (hm : lookupKV kvs "message" = some (.str s)) :
    echoHandler body = { status := 200, body := RespBody.echoR s (utf8Len s) } ∧
      ((∃ c ∈ s.data, 128 ≤ c.toNat) → s.length < utf8Len s) := by
  refine ⟨echoHandler_success hp hm, fun ⟨c, hc, h⟩ => ?_⟩
  have h2 := length_lt_utf8LenAux hc h
  unfold utf8Len
  exact h2

/-- Claim C9, witness: for the body `{"message":"é"}` the byte count 2
strictly exceeds the code-point count 1. -/
theorem echo_length_is_byte_count_witness :
    echoHandler "\x7b\"message\":\"é\"\x7d" =
      { status := 200, body := RespBody.echoR "é" (utf8Len "é") } ∧
    String.length "é" < utf8Len "é" := by
  have h := echo_length_is_byte_count "\x7b\"message\":\"é\"\x7d"
    [("message", Json.str "é")] "é" rfl rfl
  exact ⟨h.1, h.2 (by decide)⟩

/-- Claim C10: with `PORT` set, `get_port` is exactly `atoi` on its
value: a numeric prefix with trailing garbage keeps the prefix value
(`"9999abc"` gives 9999) and a negative value is returned as such
(`"-1"` gives -1); nothing is rejected and nothing falls back. -/
theorem get_port_uses_atoi :
    get_port (some "9999abc") = 9999 ∧
    get_port (some "-1") = -1 ∧
    ∀ s, get_port (some s) = atoi s := by
  refine ⟨rfl, rfl, fun s => rfl⟩

end CppService
